import Mathlib

/-!
Verification of the htmlConv repository (package `nodie`, with the earlier
`html_conv` / `htmlConv` packages where the claims reference them).

The embedding translates the Python sources:
  * `nodie/constants/constants.py`  — the security denylists and the ceiling,
  * `nodie/entities/html_node.py`   — `Children`, `HTMLNode.from_dict` and its
    private validators,
  * `nodie/converters/html_converter.py` — `to_html` and the tag-string helpers,
  * `html_conv/primitives/inline_style_attributes.py` — `InlineStyleAttributes`.

Python exceptions are modelled by an inductive with one constructor per raise
site; `BuildError.pythonException` recovers the exact Python exception class
and message, so nothing observable is lost.  Python dicts are modelled as
insertion-ordered association lists with overwrite-in-place assignment,
matching CPython's dict semantics.
-/

namespace HtmlConv

/-- `nodie/constants/constants.py` line 1: `MAX_RECURSION_DEPTH = 100`. -/
def MAX_RECURSION_DEPTH : Nat := 100

/-- `nodie/constants/constants.py` lines 2–23: the dangerous event-attribute
denylist. -/
def DANGEROUS_ATTRIBUTES : List String :=
  ["onclick", "onload", "onerror", "onmouseover", "onmouseout",
   "onkeydown", "onkeyup", "onkeypress", "onfocus", "onblur",
   "onchange", "onsubmit", "onreset", "ondblclick", "oncontextmenu",
   "oninput", "onselect", "ondrag", "ondrop", "onscroll"]

/-- `nodie/constants/constants.py` line 24: the dangerous URI schemes. -/
def DANGEROUS_PROTOCOLS : List String :=
  ["javascript:", "data:", "vbscript:", "file:"]

/-- String equality through the underlying character lists (Python `==` on
str compares the code-point sequences). -/
def strEq (a b : String) : Bool := a.data == b.data

/-- Python `str.lower()` on one character, for the ASCII range (the inputs
of interest are ASCII). -/
def pyLowerChar (c : Char) : Char :=
  if 'A' ≤ c && c ≤ 'Z' then Char.ofNat (c.toNat + 32) else c

/-- Python `str.lower()` (ASCII range). -/
def pyLower (s : String) : String := String.mk (s.data.map pyLowerChar)

/-- The characters Python `str.strip()` removes (the ASCII whitespace
set). -/
def isPySpace (c : Char) : Bool :=
  c == ' ' || c == '\t' || c == '\n' || c == '\r' ||
  c == Char.ofNat 11 || c == Char.ofNat 12

/-- Python `str.strip()`: drop leading and trailing whitespace. -/
def pyStrip (s : String) : String :=
  String.mk (((s.data.dropWhile isPySpace).reverse.dropWhile isPySpace).reverse)

/-- Python `str.startswith(pat)`. -/
def pyStartsWith (s pat : String) : Bool := pat.data.isPrefixOf s.data

/-- Python `len(s)` (number of code points). -/
def pyLen (s : String) : Nat := s.data.length

/-- Python `s[:n]` (first `n` code points). -/
def pyTake (s : String) (n : Nat) : String := String.mk (s.data.take n)

/-- Python `pattern in haystack` (substring test), on the underlying
character lists. -/
def strContainsSub (hay pat : String) : Bool :=
  hay.data.tails.any (fun t => pat.data.isPrefixOf t)

/-- `'a' ≤ c ≤ 'z'`, the character class `[a-z]`. -/
def isLowerAZ (c : Char) : Bool := 'a' ≤ c && c ≤ 'z'

/-- `'0' ≤ c ≤ '9'`, the character class `[0-9]`. -/
def isDigitAZ (c : Char) : Bool := '0' ≤ c && c ≤ '9'

/-- Python `re.match(r"^[a-z][a-z0-9-]*", s)` and
`re.match(r"^[a-z][a-z0-9-_]*", s)` viewed as a boolean.  Both regexes are
*unanchored at the end* (`re.match` only anchors at the start) and the `*`
may match the empty string, so each succeeds exactly when the first character
of `s` is a lowercase ASCII letter. -/
def reMatchLowerAlphaStart (s : String) : Bool :=
  match s.data with
  | [] => false
  | c :: _ => isLowerAZ c

/-- The *anchored* attribute-name pattern `^[a-z][a-z0-9-_]*$` that the spec
states (spec §3, "Every key matches `^[a-z][a-z0-9-_]*$`").  Written from the
spec's words, to be compared with what the code actually enforces. -/
def specMatchesAttrNameFull (s : String) : Bool :=
  match s.data with
  | [] => false
  | c :: rest =>
      isLowerAZ c && rest.all (fun d => isLowerAZ d || isDigitAZ d || d == '-' || d == '_')

/-- The *anchored* tag-name pattern `^[a-z][a-z0-9-]*$` that the spec states
(spec §3, tag names "match `^[a-z][a-z0-9-]*$`").  Written from the spec's
words. -/
def specMatchesTagNameFull (s : String) : Bool :=
  match s.data with
  | [] => false
  | c :: rest =>
      isLowerAZ c && rest.all (fun d => isLowerAZ d || isDigitAZ d || d == '-')

/-- Python dict lookup `d.get(k)` over an insertion-ordered association
list. -/
def dictGet {α : Type} (l : List (String × α)) (k : String) : Option α :=
  (l.find? (fun p => strEq p.1 k)).map (fun p => p.2)

/-- Python dict assignment `d[k] = v`: overwrite in place when the key
exists, else append at the end (CPython insertion-order semantics). -/
def dictInsert {α : Type} (l : List (String × α)) (k : String) (v : α) :
    List (String × α) :=
  if l.any (fun p => strEq p.1 k) then
    l.map (fun p => if strEq p.1 k then (k, v) else p)
  else l ++ [(k, v)]

/-- Modelled from the spec: the Tag/Attribute Catalog
(`nodie/constants/html_tag_mappers.py`, `HTML_TAGS`) is not among the source
files; per spec §1/§6 it is an external pre-populated table mapping a tag
name to `(set-of-legal-attribute-names, is_self_closing)`.  The Python code
reads only index `[1]` (the self-closing flag).  Void tags follow the spec's
examples (`img`, `br`, `hr`). -/
def HTML_TAGS : List (String × (List String × Bool)) :=
  [("div", ([], false)), ("p", ([], false)), ("span", ([], false)),
   ("a", (["href"], false)), ("ul", ([], false)), ("li", ([], false)),
   ("table", ([], false)), ("body", ([], false)), ("html", ([], false)),
   ("h1", ([], false)), ("button", ([], false)),
   ("img", (["src", "alt", "width", "height"], true)),
   ("br", ([], true)), ("hr", ([], true)),
   ("input", (["type", "value"], true)), ("meta", ([], true)),
   ("link", (["href", "rel"], true))]

/-- One constructor per raise site of the construction pipeline
(`nodie/entities/html_node.py`), each carrying the dynamic data interpolated
into the Python message. -/
inductive BuildError where
  | recursionLimit : BuildError
  | tagNameNotString (typeName : String) : BuildError
  | invalidTagChars (tag : String) : BuildError
  | tagTooLong (len : Nat) : BuildError
  | unsupportedTag (tag : String) : BuildError
  | styleNotDict : BuildError
  | childrenNotIterable (typeName : String) : BuildError
  deriving DecidableEq, Repr

/-- The Python exception class and message raised at each site, exactly as
written in `nodie/entities/html_node.py` (`SecurityError` is the class from
`nodie.exceptions`; the spec calls it `SecurityViolation`). -/
def BuildError.pythonException : BuildError → String × String
  | .recursionLimit =>
      ("SecurityError",
       "Maximum recursion depth (" ++ toString MAX_RECURSION_DEPTH ++
       ") exceeded. Possible DoS attack or malformed data.")
  | .tagNameNotString tn => ("TypeError", "Tag name must be a string, got " ++ tn)
  | .invalidTagChars t =>
      ("SecurityError",
       "Tag name contains invalid characters: '" ++ t ++
       "'. Only alphanumeric characters and hyphens are allowed.")
  | .tagTooLong n =>
      ("SecurityError", "Tag name too long: " ++ toString n ++ " characters")
  | .unsupportedTag t => ("ValueError", "Invalid or unsupported tag name: '" ++ t ++ "'")
  | .styleNotDict => ("ValueError", "Style attribute must be a dictionary")
  | .childrenNotIterable tn =>
      ("TypeError", "Children must be an iterable, got " ++ tn)

/-- A runtime value sitting in the `attributes` map: a string, a nested dict
(string-valued, the shape used for `style`), or some other Python object
(carrying its type name). -/
inductive AttrVal where
  | str (s : String) : AttrVal
  | dict (d : List (String × String)) : AttrVal
  | other (typeName : String) : AttrVal
  deriving DecidableEq, Repr

/-- The value found under the `"tag_name"` key: a string, or a non-string
object carrying its Python type name (an absent key yields `None`, i.e.
`nonStr "NoneType"`). -/
inductive TagField where
  | strv (s : String) : TagField
  | nonStr (typeName : String) : TagField
  deriving DecidableEq, Repr

mutual
/-- The untrusted input dictionary consumed by `HTMLNode.from_dict`:
the `"tag_name"` value, the `"attributes"` dict (absent key = empty dict)
and the `"children"` value. -/
inductive IDict where
  | mk (tagName : TagField) (attrs : List (String × AttrVal))
      (children : CField) : IDict

/-- The value found under the `"children"` key: a list/tuple of entries,
or a value of some other Python type (an absent key defaults to the empty
tuple, i.e. `ok nil`). -/
inductive CField where
  | ok (items : CL) : CField
  | bad (typeName : String) : CField

/-- The entries of a `children` sequence, in order: nested dicts, strings,
or values of any other type (carrying the Python type name). -/
inductive CL where
  | nil : CL
  | consDict (d : IDict) (rest : CL) : CL
  | consText (s : String) (rest : CL) : CL
  | consOther (typeName : String) (rest : CL) : CL
end

mutual
/-- A constructed `HTMLNode` (`nodie/entities/html_node.py` lines 44–60):
validated tag name, the clean attribute dict (the Attribute Set), the
self-closing flag from the catalog, the validated inline styles, and the
`Children` container.  (`Attributes` itself is absent from the sources;
per spec §3/§6 it stores the validated mapping unchanged — the
catalog-based attribute filter is a separate helper outside the strict
pipeline.) -/
inductive HNode where
  | mk (tagName : String) (attributes : List (String × String))
      (isSelfClosedTag : Bool) (inlineStyles : List (String × String))
      (children : HChildren) : HNode

/-- The contents of a node's `Children` container produced by the
pipeline: document nodes and (sanitized) text, in order. -/
inductive HChildren where
  | nil : HChildren
  | consNode (n : HNode) (rest : HChildren) : HChildren
  | consText (s : String) (rest : HChildren) : HChildren
end

deriving instance DecidableEq for IDict
deriving instance DecidableEq for HNode

instance : DecidableEq (Except BuildError HNode) := fun a b =>
  match a, b with
  | .ok x, .ok y =>
      if h : x = y then .isTrue (by rw [h]) else .isFalse (by simp [h])
  | .error e, .error f =>
      if h : e = f then .isTrue (by rw [h]) else .isFalse (by simp [h])
  | .ok _, .error _ => .isFalse (by simp)
  | .error _, .ok _ => .isFalse (by simp)

def HNode.tagName : HNode → String
  | .mk t _ _ _ _ => t

def HNode.attributes : HNode → List (String × String)
  | .mk _ a _ _ _ => a

def HNode.isSelfClosedTag : HNode → Bool
  | .mk _ _ b _ _ => b

def HNode.inlineStyles : HNode → List (String × String)
  | .mk _ _ _ s _ => s

def HNode.children : HNode → HChildren
  | .mk _ _ _ _ c => c

/-- Replace a node's children, leaving everything else unchanged. -/
def HNode.withChildren : HNode → HChildren → HNode
  | .mk t a b s _, c => .mk t a b s c

/-- `HTMLNode.__validate_tag_name` (lines 144–169): strip + lowercase, the
(unanchored) `re.match(r"^[a-z][a-z0-9-]*", ...)` check, then the 50-char
bound. -/
def validateTagName (tagName : String) : Except BuildError String :=
  let t := pyLower (pyStrip tagName)
  if !reMatchLowerAlphaStart t then
    .error (.invalidTagChars t)
  else if pyLen t > 50 then
    .error (.tagTooLong (pyLen t))
  else
    .ok t

/-- `HTMLNode.__validate_attribute_value` (lines 216–249): reject values
whose lowercase form starts with a denylisted scheme, truncate values longer
than 1000 characters, keep the rest unchanged. -/
def validateAttributeValue (value : String) : Option String :=
  let lowerValue := pyLower value
  if DANGEROUS_PROTOCOLS.any (fun p => pyStartsWith lowerValue p) then
    none
  else if pyLen value > 1000 then
    some (pyTake value 1000)
  else
    some value

/-- The body of the `HTMLNode.__validate_attributes` loop (lines 182–213),
folding over the items of the raw attribute dict in insertion order. -/
def validateAttributesStep (acc : List (String × AttrVal))
    (entry : String × AttrVal) : List (String × AttrVal) :=
  let normalizedKey := pyLower (pyStrip entry.1)
  if DANGEROUS_ATTRIBUTES.any (strEq normalizedKey) then
    acc
  else if !reMatchLowerAlphaStart normalizedKey then
    acc
  else if strEq normalizedKey "style" then
    dictInsert acc normalizedKey entry.2
  else
    match entry.2 with
    | .str s =>
        match validateAttributeValue s with
        | some safeValue => dictInsert acc normalizedKey (.str safeValue)
        | none => acc
    | _ => acc

/-- `HTMLNode.__validate_attributes` (lines 171–214).  The `tag_name`
argument is used only for log messages in the source. -/
def validateAttributes (attrs : List (String × AttrVal)) (tagName : String) :
    List (String × AttrVal) :=
  let _ := tagName
  attrs.foldl validateAttributesStep []

/-- `HTMLNode.__sanitize_text_content` (lines 251–262):
`re.sub(r"[<>&]", "", text)`. -/
def sanitizeTextContent (text : String) : String :=
  String.mk (text.data.filter (fun c => !(c == '<' || c == '>' || c == '&')))

/-- `InlineStyleAttributes.clean_style_value`
(`html_conv/primitives/inline_style_attributes.py` lines 39–60), restricted
to string values: strip, then reject (empty string) when a dangerous pattern
occurs as a case-insensitive substring. -/
def cleanStyleValue (value : String) : String :=
  let strValue := pyStrip value
  if ["javascript:", "expression(", "<script"].any
      (fun pat => strContainsSub (pyLower strValue) (pyLower pat)) then
    ""
  else strValue

/-- `InlineStyleAttributes.validate_styles` (lines 19–37): normalize each
property name, keep it when the cleaned value is truthy (non-empty). -/
def validateStyles (styles : List (String × String)) : List (String × String) :=
  styles.foldl
    (fun acc entry =>
      let normalizedProperty := pyLower (pyStrip entry.1)
      let cleanedValue := cleanStyleValue entry.2
      if !(strEq cleanedValue "") then
        dictInsert acc normalizedProperty cleanedValue
      else acc)
    []

/-- `HTMLNode.__create_inline_style_attributes_instance` (lines 264–276):
no `style` key means empty styles; a dict-valued `style` is validated; any
other value raises `ValueError("Style attribute must be a dictionary")`. -/
def createInlineStyleAttributes (rawAttrs : List (String × AttrVal)) :
    Except BuildError (List (String × String)) :=
  match dictGet rawAttrs "style" with
  | none => .ok (validateStyles [])
  | some (.dict d) => .ok (validateStyles d)
  | some _ => .error .styleNotDict

/-- `HTMLNode.__clean_attributes` (lines 295–304): keep the string-valued
entries whose key is not `style`, preserving order. -/
def cleanAttributes (rawAttrs : List (String × AttrVal)) :
    List (String × String) :=
  rawAttrs.filterMap
    (fun entry =>
      match entry.2 with
      | .str s => if !(strEq entry.1 "style") then some (entry.1, s) else none
      | _ => none)

mutual
/-- `HTMLNode.from_dict` (lines 69–127), with `attrs_mapper = None` (so the
raw attributes are `interpretable_data.get("attributes", {})`): depth
guard, tag-name type check, tag validation, catalog lookup, attribute
validation, inline-style construction, attribute cleaning, children type
check, recursive descent. -/
def fromDict (d : IDict) (depth : Nat) : Except BuildError HNode :=
  match d with
  | .mk tagF attrs childF =>
    if depth > MAX_RECURSION_DEPTH then
      .error .recursionLimit
    else
      match tagF with
      | .nonStr tn => .error (.tagNameNotString tn)
      | .strv tagName =>
        match validateTagName tagName with
        | .error e => .error e
        | .ok validatedTagName =>
          match dictGet HTML_TAGS validatedTagName with
          | none => .error (.unsupportedTag tagName)
          | some tagValues =>
            let isSelfClosedTag := tagValues.2
            let safeRawAttrs := validateAttributes attrs validatedTagName
            match createInlineStyleAttributes safeRawAttrs with
            | .error e => .error e
            | .ok inlineStyles =>
              let cleanAttrs := cleanAttributes safeRawAttrs
              match childF with
              | .bad tn => .error (.childrenNotIterable tn)
              | .ok items =>
                match genChildren items (depth + 1) with
                | .error e => .error e
                | .ok childNodes =>
                  .ok (.mk validatedTagName cleanAttrs isSelfClosedTag
                        inlineStyles childNodes)
termination_by structural d

/-- `HTMLNode.generate_children` (lines 132–142): dict entries recurse at
the same `_depth` the helper received, string entries are sanitized, and
entries of any other type fall through the `if/elif` with no `else` —
they are silently skipped. -/
def genChildren (items : CL) (depth : Nat) : Except BuildError HChildren :=
  match items with
  | .nil => .ok .nil
  | .consDict d rest =>
    match fromDict d depth with
    | .error e => .error e
    | .ok n =>
      match genChildren rest depth with
      | .error e => .error e
      | .ok tail => .ok (.consNode n tail)
  | .consText s rest =>
    match genChildren rest depth with
    | .error e => .error e
    | .ok tail => .ok (.consText (sanitizeTextContent s) tail)
  | .consOther _ rest => genChildren rest depth
termination_by structural items
end

/-- The public entry point: `HTMLNode.from_dict(data)` with the default
`_depth = 0`. -/
def build (d : IDict) : Except BuildError HNode :=
  fromDict d 0

mutual
/-- The nesting depth of an input: the longest chain of nested child
dicts below (and including edges from) the root; a dict with no dict
children has depth 0. -/
def dictDepth (d : IDict) : Nat :=
  match d with
  | .mk _ _ (.bad _) => 0
  | .mk _ _ (.ok items) => clDepth items

/-- The deepest nesting among a list of child entries. -/
def clDepth (items : CL) : Nat :=
  match items with
  | .nil => 0
  | .consDict d rest => max (1 + dictDepth d) (clDepth rest)
  | .consText _ rest => clDepth rest
  | .consOther _ rest => clDepth rest
end

/-! ## The serializer (`nodie/converters/html_converter.py`) -/

/-- `InlineStyleAttributes.to_string`
(`html_conv/primitives/inline_style_attributes.py` lines 62–72): empty
styles give the empty string, otherwise
`" style='prop1: val1; prop2: val2;' "`. -/
def stylesToString (styles : List (String × String)) : String :=
  match styles with
  | [] => ""
  | _ =>
      let styleParts := styles.map (fun p => p.1 ++ ": " ++ p.2)
      " style='" ++ String.intercalate "; " styleParts ++ ";' "

/-- Modelled from the spec: `Attributes.attributes_to_html_string` lives in
the absent `nodie/entities/attributes.py`.  Per the spec's serializer
contract and scenarios (§4.3, §8: `<img src='test.jpg' alt='test image'/>`,
and the repository's test suite asserting `key='value'` pieces joined by
single spaces, empty for no attributes), it joins `key='value'` items with
one space. -/
def attributesToHtmlString (attrs : List (String × String)) : String :=
  String.intercalate " " (attrs.map (fun p => p.1 ++ "='" ++ p.2 ++ "'"))

/-- `create_open_tag_string` (`nodie/converters/html_converter.py` lines
32–36); the Python function receives the node and reads `node.tag_name`. -/
def createOpenTagString (tagName : String) (htmlAttrs : String) : String :=
  let tagTemplate := tagName
  let tagTemplate :=
    if pyLen htmlAttrs > 1 then tagTemplate ++ htmlAttrs else tagTemplate
  "<" ++ tagTemplate ++ ">"

/-- `create_close_tag_string` (lines 39–40). -/
def createCloseTagString (tagName : String) : String :=
  "</" ++ tagName ++ ">"

/-- `create_self_closing_tag_string` (lines 43–47). -/
def createSelfClosingTagString (tagName : String) (htmlAttrs : String) : String :=
  let tagTemplate := tagName
  let tagTemplate :=
    if pyLen htmlAttrs > 1 then tagTemplate ++ htmlAttrs else tagTemplate
  "<" ++ tagTemplate ++ "/>"

mutual
/-- `to_html` (lines 13–29) with `file_path = None`: combine the style and
attribute strings; a self-closing node renders as a single self-closing
tag, any other node as open tag + children renderings + close tag. -/
def to_html (n : HNode) : String :=
  match n with
  | .mk tagName attributes isSelfClosedTag inlineStyleAttrs children =>
    let inlineStyles := stylesToString inlineStyleAttrs
    let htmlAttrs := inlineStyles ++ " " ++ attributesToHtmlString attributes
    if isSelfClosedTag then
      createSelfClosingTagString tagName htmlAttrs
    else
      createOpenTagString tagName htmlAttrs ++ hchildrenToHtml children ++
        createCloseTagString tagName
termination_by structural n

/-- `"".join(node_to_html(child) for child in root_node.get_children())`
together with `node_to_html` (lines 7–10): text children render verbatim,
node children recursively. -/
def hchildrenToHtml (c : HChildren) : String :=
  match c with
  | .nil => ""
  | .consNode n rest => to_html n ++ hchildrenToHtml rest
  | .consText s rest => s ++ hchildrenToHtml rest
termination_by structural c
end

/-! ## The `Children` container (`nodie/entities/html_node.py` lines 19–41)

The container's operations inspect a child only through `isinstance` and
`node_id`, so a Document Node child is represented here by its `node_id`. -/

/-- An `HTMLNode` child as seen by the `Children` container: only its
identity is consulted. -/
structure NodeRef where
  node_id : String
  deriving DecidableEq, Repr

/-- An element of `Children.children`: an `HTMLNode`, a `str`, or — when
smuggled in through `add_children` — a value of any other Python type
(carrying its type name). -/
inductive ChildEntry where
  | nodeE (n : NodeRef) : ChildEntry
  | textE (s : String) : ChildEntry
  | otherE (typeName : String) : ChildEntry
  deriving DecidableEq, Repr

/-- `Children.add_child` (lines 23–28): raise
`TypeError("Child must be Node or str, got ...")` unless the argument is an
`HTMLNode` or a `str`; otherwise append it. -/
def childrenAddChild (children : List ChildEntry) (childNode : ChildEntry) :
    Except String (List ChildEntry) :=
  match childNode with
  | .otherE tn => .error ("Child must be Node or str, got " ++ tn)
  | c => .ok (children ++ [c])

/-- `Children.add_children` (lines 30–31): `self.children.extend(...)`,
with no validation of the elements. -/
def childrenAddChildren (children newChildren : List ChildEntry) :
    List ChildEntry :=
  children ++ newChildren

/-- `Children.remove_child` (lines 33–38): keep exactly the entries that are
not an `HTMLNode` whose `node_id` equals the argument. -/
def childrenRemoveChild (children : List ChildEntry) (childNodeId : String) :
    List ChildEntry :=
  children.filter
    (fun child =>
      match child with
      | .nodeE n => !(strEq n.node_id childNodeId)
      | _ => true)

/-- `Children.remove_children` (lines 40–41). -/
def childrenRemoveChildren (_children : List ChildEntry) : List ChildEntry :=
  []

/-! ## Helper lemmas -/

theorem strEq_iff (a b : String) : strEq a b = true ↔ a = b := by
  unfold strEq
  rw [beq_iff_eq]
  exact ⟨String.ext, fun h => by rw [h]⟩

theorem strEq_self (a : String) : strEq a a = true := (strEq_iff a a).mpr rfl

theorem strEq_false_of_ne {a b : String} (h : a ≠ b) : strEq a b = false := by
  cases hs : strEq a b
  · rfl
  · exact absurd ((strEq_iff a b).mp hs) h

theorem any_strEq_of_mem {a : String} {l : List String} (h : a ∈ l) :
    l.any (strEq a) = true :=
  List.any_eq_true.mpr ⟨a, h, strEq_self a⟩

theorem ne_of_not_any_strEq {a : String} {l : List String}
    (h : ¬ l.any (strEq a) = true) {b : String} (hb : b ∈ l) : a ≠ b :=
  fun he => h (any_strEq_of_mem (he ▸ hb))

theorem find?_overwrite_ne {α : Type} (l : List (String × α)) (k nk : String)
    (v : α) (hk : strEq k nk = false) :
    (l.map (fun p => if strEq p.1 k then (k, v) else p)).find?
        (fun p => strEq p.1 nk) =
      l.find? (fun p => strEq p.1 nk) := by
  induction l with
  | nil => rfl
  | cons p rest ih =>
    by_cases hp : strEq p.1 k = true
    · have hpk : p.1 = k := (strEq_iff _ _).mp hp
      have hpnk : strEq p.1 nk = false := hpk ▸ hk
      simp only [List.map_cons, if_pos hp]
      rw [@List.find?_cons_of_neg _ (fun q => strEq q.1 nk) (k, v) _ (by simp [hk]),
        @List.find?_cons_of_neg _ (fun q => strEq q.1 nk) p _ (by simp [hpnk]), ih]
    · simp only [List.map_cons, if_neg hp]
      by_cases hnk : strEq p.1 nk = true
      · rw [@List.find?_cons_of_pos _ (fun q => strEq q.1 nk) p _ hnk,
          @List.find?_cons_of_pos _ (fun q => strEq q.1 nk) p _ hnk]
      · rw [@List.find?_cons_of_neg _ (fun q => strEq q.1 nk) p _ hnk,
          @List.find?_cons_of_neg _ (fun q => strEq q.1 nk) p _ hnk, ih]

theorem dictGet_insert_ne {α : Type} (l : List (String × α)) (k nk : String)
    (v : α) (h : k ≠ nk) : dictGet (dictInsert l k v) nk = dictGet l nk := by
  have hk : strEq k nk = false := strEq_false_of_ne h
  unfold dictInsert dictGet
  split
  · rw [find?_overwrite_ne l k nk v hk]
  · rw [List.find?_append]
    have : List.find? (fun p => strEq p.1 nk) [(k, v)] = none := by
      simp [List.find?, hk]
    rw [this]
    cases List.find? (fun p => strEq p.1 nk) l <;> rfl

theorem validateAttributes_tag_irrelevant (attrs : List (String × AttrVal))
    (t₁ t₂ : String) : validateAttributes attrs t₁ = validateAttributes attrs t₂ :=
  rfl

/-- One step of attribute validation never introduces a denylisted key. -/
theorem validateAttributesStep_dangerous_none (acc : List (String × AttrVal))
    (e : String × AttrVal) {nk : String} (hnk : nk ∈ DANGEROUS_ATTRIBUTES)
    (hacc : dictGet acc nk = none) :
    dictGet (validateAttributesStep acc e) nk = none := by
  simp only [validateAttributesStep]
  by_cases h1 : DANGEROUS_ATTRIBUTES.any (strEq (pyLower (pyStrip e.1))) = true
  · rw [if_pos h1]
    exact hacc
  · have hne : pyLower (pyStrip e.1) ≠ nk := ne_of_not_any_strEq h1 hnk
    rw [if_neg h1]
    by_cases h2 : reMatchLowerAlphaStart (pyLower (pyStrip e.1)) = true
    · rw [if_neg (by simp [h2])]
      by_cases h3 : strEq (pyLower (pyStrip e.1)) "style" = true
      · rw [if_pos h3, dictGet_insert_ne _ _ _ _ hne]
        exact hacc
      · rw [if_neg h3]
        cases hv2 : e.2 with
        | str s =>
          simp only [hv2]
          cases hv : validateAttributeValue s with
          | none =>
            simp only [hv]
            exact hacc
          | some sv =>
            simp only [hv]
            rw [dictGet_insert_ne _ _ _ _ hne]
            exact hacc
        | dict d =>
          simp only [hv2]
          exact hacc
        | other tn =>
          simp only [hv2]
          exact hacc
    · rw [if_pos (by simp [h2])]
      exact hacc

/-- The attribute-validation fold never introduces a denylisted key. -/
theorem validateAttributes_foldl_dangerous_none
    (attrs : List (String × AttrVal)) (acc : List (String × AttrVal))
    {nk : String} (hnk : nk ∈ DANGEROUS_ATTRIBUTES)
    (hacc : dictGet acc nk = none) :
    dictGet (attrs.foldl validateAttributesStep acc) nk = none := by
  induction attrs generalizing acc with
  | nil => exact hacc
  | cons e rest ih =>
    exact ih _ (validateAttributesStep_dangerous_none acc e hnk hacc)

/-- `__clean_attributes` keeps only keys already present in its input. -/
theorem cleanAttributes_dictGet_none (l : List (String × AttrVal))
    {nk : String} (h : dictGet l nk = none) :
    dictGet (cleanAttributes l) nk = none := by
  unfold dictGet at h ⊢
  rw [Option.map_eq_none'] at h ⊢
  rw [List.find?_eq_none] at h ⊢
  intro x hx
  unfold cleanAttributes at hx
  rw [List.mem_filterMap] at hx
  obtain ⟨e, he, hex⟩ := hx
  cases e with
  | mk k v =>
    cases v with
    | str s =>
      by_cases hst : strEq k "style" = true
      · simp [hst] at hex
      · have hb : strEq k "style" = false := by
          cases hq : strEq k "style"
          · rfl
          · exact absurd hq hst
        simp only [hb, Bool.not_false, if_true] at hex
        have hx2 : x = (k, s) := by
          exact (Option.some_inj.mp hex).symm
        subst hx2
        simpa using h _ he
    | dict d => simp at hex
    | other tn => simp at hex

/-- A substring witness written as `pre ++ pat ++ post` makes
`strContainsSub` true. -/
theorem strContainsSub_of_parts (pre pat post : String) :
    strContainsSub (pre ++ pat ++ post) pat = true := by
  unfold strContainsSub
  rw [List.any_eq_true]
  refine ⟨pat.data ++ post.data, ?_, ?_⟩
  · rw [List.mem_tails, String.data_append, String.data_append, List.append_assoc]
    exact ⟨pre.data, rfl⟩
  · rw [List.isPrefixOf_iff_prefix]
    exact ⟨post.data, rfl⟩

/-- `__validate_tag_name` raises only the invalid-characters or the
too-long `SecurityError`, never the recursion-limit one. -/
theorem validateTagName_error_ne_recursion (t : String) (e : BuildError)
    (h : validateTagName t = .error e) : e ≠ .recursionLimit := by
  simp only [validateTagName] at h
  split at h
  · injection h with he
    rw [← he]
    simp
  · split at h
    · injection h with he
      rw [← he]
      simp
    · exact absurd h (by simp)

/-- `__create_inline_style_attributes_instance` raises only the
style-not-a-dictionary `ValueError`. -/
theorem createInline_error_eq_style (ra : List (String × AttrVal))
    (e : BuildError) (h : createInlineStyleAttributes ra = .error e) :
    e = .styleNotDict := by
  unfold createInlineStyleAttributes at h
  split at h
  · exact absurd h (by simp)
  · exact absurd h (by simp)
  · injection h with he
    exact he.symm

mutual

/-- If `from_dict` succeeds at depth `k`, every nested dict was visited at
its own depth without tripping the guard, so `k` plus the input's nesting
depth stays within the ceiling. -/
theorem fromDict_ok_depth_le (d : IDict) (k : Nat) (n : HNode)
    (h : fromDict d k = .ok n) : k + dictDepth d ≤ MAX_RECURSION_DEPTH := by
  cases d with
  | mk tagF attrs childF =>
    cases tagF with
    | nonStr tn =>
      rw [fromDict.eq_1] at h
      split at h
      · exact absurd h (by simp)
      · exact absurd h (by simp)
    | strv tagName =>
      rw [fromDict.eq_2] at h
      by_cases hg : k > MAX_RECURSION_DEPTH
      · rw [if_pos hg] at h
        exact absurd h (by simp)
      · rw [if_neg hg] at h
        cases hvt : validateTagName tagName with
        | error e =>
          simp only [hvt] at h
          exact absurd h (by simp)
        | ok vt =>
          simp only [hvt] at h
          cases hcat : dictGet HTML_TAGS vt with
          | none =>
            simp only [hcat] at h
            exact absurd h (by simp)
          | some tagValues =>
            simp only [hcat] at h
            cases hst : createInlineStyleAttributes (validateAttributes attrs vt) with
            | error e =>
              simp only [hst] at h
              exact absurd h (by simp)
            | ok inlineStyles =>
              simp only [hst] at h
              cases childF with
              | bad tn =>
                exact absurd h (by simp)
              | ok items =>
                cases hgc : genChildren items (k + 1) with
                | error e =>
                  simp only [hgc] at h
                  exact absurd h (by simp)
                | ok childNodes =>
                  have hrec := genChildren_ok_depth_le items (k + 1) childNodes
                    (by omega) hgc
                  simp only [dictDepth]
                  omega
termination_by structural d

/-- Companion to `fromDict_ok_depth_le` for child lists: a successful
`generate_children` at depth `k ≤ ceiling + 1` bounds `k` plus the deepest
nesting among the entries by `ceiling + 1`. -/
theorem genChildren_ok_depth_le (items : CL) (k : Nat) (hc : HChildren)
    (hk : k ≤ MAX_RECURSION_DEPTH + 1) (h : genChildren items k = .ok hc) :
    k + clDepth items ≤ MAX_RECURSION_DEPTH + 1 := by
  cases items with
  | nil =>
    simp only [clDepth]
    omega
  | consDict d rest =>
    rw [genChildren.eq_2] at h
    cases hfd : fromDict d k with
    | error e =>
      simp only [hfd] at h
      exact absurd h (by simp)
    | ok n =>
      simp only [hfd] at h
      cases hgc : genChildren rest k with
      | error e =>
        simp only [hgc] at h
        exact absurd h (by simp)
      | ok tail =>
        have h1 := fromDict_ok_depth_le d k n hfd
        have h2 := genChildren_ok_depth_le rest k tail hk hgc
        simp only [clDepth]
        omega
  | consText s rest =>
    rw [genChildren.eq_3] at h
    cases hgc : genChildren rest k with
    | error e =>
      simp only [hgc] at h
      exact absurd h (by simp)
    | ok tail =>
      have h2 := genChildren_ok_depth_le rest k tail hk hgc
      simp only [clDepth]
      omega
  | consOther tn rest =>
    rw [genChildren.eq_4] at h
    have h2 := genChildren_ok_depth_le rest k hc hk h
    simp only [clDepth]
    omega
termination_by structural items

end

mutual

/-- When `k` plus the nesting depth stays within the ceiling, `from_dict`
never raises the recursion-limit error (though it may fail otherwise). -/
theorem fromDict_ne_recursion (d : IDict) (k : Nat)
    (hle : k + dictDepth d ≤ MAX_RECURSION_DEPTH) :
    fromDict d k ≠ .error .recursionLimit := by
  cases d with
  | mk tagF attrs childF =>
    have hg : ¬ k > MAX_RECURSION_DEPTH := by omega
    cases tagF with
    | nonStr tn =>
      rw [fromDict.eq_1, if_neg hg]
      simp
    | strv tagName =>
      rw [fromDict.eq_2, if_neg hg]
      cases hvt : validateTagName tagName with
      | error e =>
        simp only [hvt]
        intro hc
        injection hc with he
        exact validateTagName_error_ne_recursion tagName e hvt he
      | ok vt =>
        simp only [hvt]
        cases hcat : dictGet HTML_TAGS vt with
        | none => simp [hcat]
        | some tagValues =>
          simp only [hcat]
          cases hst : createInlineStyleAttributes (validateAttributes attrs vt) with
          | error e =>
            simp only [hst]
            intro hc
            injection hc with he
            have hse := createInline_error_eq_style _ _ hst
            rw [hse] at he
            exact absurd he (by decide)
          | ok inlineStyles =>
            simp only [hst]
            cases childF with
            | bad tn => simp
            | ok items =>
              have hcl : (k + 1) + clDepth items ≤ MAX_RECURSION_DEPTH + 1 := by
                simp only [dictDepth] at hle
                omega
              cases hgc : genChildren items (k + 1) with
              | error e =>
                simp only [hgc]
                intro hc
                injection hc with he
                exact genChildren_ne_recursion items (k + 1) hcl
                  (by rw [hgc, he])
              | ok cn => simp [hgc]
termination_by structural d

/-- Companion to `fromDict_ne_recursion` for child lists. -/
theorem genChildren_ne_recursion (items : CL) (k : Nat)
    (hle : k + clDepth items ≤ MAX_RECURSION_DEPTH + 1) :
    genChildren items k ≠ .error .recursionLimit := by
  cases items with
  | nil =>
    rw [genChildren.eq_1]
    simp
  | consDict d rest =>
    rw [genChildren.eq_2]
    have hd : k + dictDepth d ≤ MAX_RECURSION_DEPTH := by
      simp only [clDepth] at hle
      omega
    have hr : k + clDepth rest ≤ MAX_RECURSION_DEPTH + 1 := by
      simp only [clDepth] at hle
      omega
    cases hfd : fromDict d k with
    | error e =>
      simp only [hfd]
      intro hc
      injection hc with he
      exact fromDict_ne_recursion d k hd (by rw [hfd, he])
    | ok n =>
      simp only [hfd]
      cases hgc : genChildren rest k with
      | error e =>
        simp only [hgc]
        intro hc
        injection hc with he
        exact genChildren_ne_recursion rest k hr (by rw [hgc, he])
      | ok tail => simp [hgc]
  | consText s rest =>
    rw [genChildren.eq_3]
    have hr : k + clDepth rest ≤ MAX_RECURSION_DEPTH + 1 := by
      simp only [clDepth] at hle
      omega
    cases hgc : genChildren rest k with
    | error e =>
      simp only [hgc]
      intro hc
      injection hc with he
      exact genChildren_ne_recursion rest k hr (by rw [hgc, he])
    | ok tail => simp [hgc]
  | consOther tn rest =>
    rw [genChildren.eq_4]
    exact genChildren_ne_recursion rest k
      (by simp only [clDepth] at hle; exact hle)
termination_by structural items

end

/-- A straight chain of `n + 1` nested `div` dicts (nesting depth `n`). -/
def deepChain : Nat → IDict
  | 0 => .mk (.strv "div") [] (.ok .nil)
  | n + 1 => .mk (.strv "div") [] (.ok (.consDict (deepChain n) .nil))

theorem dictDepth_deepChain (n : Nat) : dictDepth (deepChain n) = n := by
  induction n with
  | zero => rfl
  | succ n ih =>
    simp only [deepChain, dictDepth, clDepth, ih]
    omega

/-- On an otherwise-valid chain nested past the ceiling, `from_dict`
produces exactly the recursion-limit `SecurityError`. -/
theorem deepChain_recursion_error (n : Nat) :
    ∀ k : Nat, MAX_RECURSION_DEPTH < k + n →
      fromDict (deepChain n) k = .error .recursionLimit := by
  induction n with
  | zero =>
    intro k hk
    rw [show deepChain 0 = .mk (.strv "div") [] (.ok .nil) from rfl,
      fromDict.eq_2, if_pos (show k > MAX_RECURSION_DEPTH by omega)]
  | succ n ih =>
    intro k hk
    rw [show deepChain (n + 1) =
        .mk (.strv "div") [] (.ok (.consDict (deepChain n) .nil)) from rfl,
      fromDict.eq_2]
    by_cases hg : k > MAX_RECURSION_DEPTH
    · rw [if_pos hg]
    · rw [if_neg hg]
      have hvt : validateTagName "div" = .ok "div" := rfl
      have hcat : dictGet HTML_TAGS "div" = some ([], false) := rfl
      have hst : createInlineStyleAttributes (validateAttributes [] "div") =
          .ok (validateStyles []) := rfl
      have hrec := ih (k + 1) (by omega)
      simp only [hvt, hcat, hst, genChildren.eq_2, hrec]

/-! ## The claims -/

/-- C3: an attribute whose normalized (stripped, lowercased) key is in the
dangerous event-attribute denylist never appears in the validated attribute
dict nor in the node's final Attribute Set, and supplying such an attribute
is silent: appending it leaves the validated attributes unchanged (the
validation stage is a total function and raises nothing), and a `build`
carrying `onclick` still succeeds, with the key absent from the node. -/
theorem c3_dangerous_attribute_dropped (attrs : List (String × AttrVal))
    (tagName k : String) (v : AttrVal)
    (hk : pyLower (pyStrip k) ∈ DANGEROUS_ATTRIBUTES) :
    dictGet (validateAttributes attrs tagName) (pyLower (pyStrip k)) = none ∧
    dictGet (cleanAttributes (validateAttributes attrs tagName))
      (pyLower (pyStrip k)) = none ∧
    validateAttributes (attrs ++ [(k, v)]) tagName =
      validateAttributes attrs tagName ∧
    build (.mk (.strv "div")
        [("id", AttrVal.str "x"), ("onclick", AttrVal.str "alert(1)")]
        (.ok .nil)) =
      .ok (.mk "div" [("id", "x")] false [] .nil) := by
  have h1 : dictGet (validateAttributes attrs tagName) (pyLower (pyStrip k)) =
      none :=
    validateAttributes_foldl_dangerous_none attrs [] hk rfl
  have h3 : validateAttributes (attrs ++ [(k, v)]) tagName =
      validateAttributes attrs tagName := by
    unfold validateAttributes
    rw [List.foldl_append]
    simp only [List.foldl, validateAttributesStep]
    rw [if_pos (any_strEq_of_mem hk)]
  exact ⟨h1, cleanAttributes_dictGet_none _ h1, h3, by decide⟩

/-- Witness for C3 at the denylisted key `"OnClick "` (normalizing to
`onclick`): the key is absent from the validated attributes and appending
the attribute leaves the validated attribute dict unchanged. -/
theorem c3_dangerous_attribute_dropped_witness :
    dictGet (validateAttributes [("OnClick ", AttrVal.str "alert(1)")] "div")
      (pyLower (pyStrip "OnClick ")) = none ∧
    validateAttributes
        ([("id", AttrVal.str "x")] ++ [("OnClick ", AttrVal.str "alert(1)")])
        "div" =
      validateAttributes [("id", AttrVal.str "x")] "div" :=
  ⟨(c3_dangerous_attribute_dropped [("OnClick ", AttrVal.str "alert(1)")] "div"
      "OnClick " (AttrVal.str "alert(1)") (by decide)).1,
   (c3_dangerous_attribute_dropped [("id", AttrVal.str "x")] "div" "OnClick "
      (AttrVal.str "alert(1)") (by decide)).2.2.1⟩

/-- C4: a string attribute value whose lowercased form begins with a
denylisted URI scheme is rejected outright (the attribute is absent, not
truncated); otherwise a value longer than 1000 characters is truncated to
its first 1000 characters, and any other value is kept unchanged. -/
theorem c4_attribute_value_policy (v : String) :
    ((∃ p ∈ DANGEROUS_PROTOCOLS, pyStartsWith (pyLower v) p = true) →
      validateAttributeValue v = none ∧
      ∀ (k tagName : String), strEq (pyLower (pyStrip k)) "style" = false →
        validateAttributes [(k, AttrVal.str v)] tagName = []) ∧
    ((∀ p ∈ DANGEROUS_PROTOCOLS, pyStartsWith (pyLower v) p = false) →
      1000 < pyLen v →
      validateAttributeValue v = some (pyTake v 1000)) ∧
    ((∀ p ∈ DANGEROUS_PROTOCOLS, pyStartsWith (pyLower v) p = false) →
      pyLen v ≤ 1000 →
      validateAttributeValue v = some v) := by
  refine ⟨?_, ?_, ?_⟩
  · intro hex
    have hany : DANGEROUS_PROTOCOLS.any (fun p => pyStartsWith (pyLower v) p) =
        true :=
      List.any_eq_true.mpr hex
    have hnone : validateAttributeValue v = none := by
      simp only [validateAttributeValue]
      rw [if_pos hany]
    refine ⟨hnone, ?_⟩
    intro k tagName hstyle
    simp only [validateAttributes, List.foldl, validateAttributesStep]
    by_cases h1 : DANGEROUS_ATTRIBUTES.any (strEq (pyLower (pyStrip k))) = true
    · rw [if_pos h1]
    · rw [if_neg h1]
      by_cases h2 : reMatchLowerAlphaStart (pyLower (pyStrip k)) = true
      · rw [if_neg (by simp [h2]), if_neg (by simp [hstyle])]
        simp [hnone]
      · rw [if_pos (by simp [h2])]
  · intro hall hlen
    have hany : DANGEROUS_PROTOCOLS.any (fun p => pyStartsWith (pyLower v) p) =
        false := by
      rw [List.any_eq_false]
      intro p hp
      simp [hall p hp]
    simp only [validateAttributeValue]
    rw [if_neg (by simp [hany]), if_pos hlen]
  · intro hall hlen
    have hany : DANGEROUS_PROTOCOLS.any (fun p => pyStartsWith (pyLower v) p) =
        false := by
      rw [List.any_eq_false]
      intro p hp
      simp [hall p hp]
    simp only [validateAttributeValue]
    rw [if_neg (by simp [hany]), if_neg (by omega)]

/-- Witness for C4: a `javascript:` value (case-insensitively) is dropped
with its attribute, and an ordinary short value is kept unchanged. -/
theorem c4_attribute_value_policy_witness :
    validateAttributeValue "JavaScript:alert(1)" = none ∧
    validateAttributes [("href", AttrVal.str "javascript:alert(1)")] "a" = [] ∧
    validateAttributeValue "test.jpg" = some "test.jpg" :=
  ⟨((c4_attribute_value_policy "JavaScript:alert(1)").1 (by decide)).1,
   ((c4_attribute_value_policy "javascript:alert(1)").1 (by decide)).2 "href" "a"
     (by decide),
   (c4_attribute_value_policy "test.jpg").2.2 (by decide) (by decide)⟩

/-- C5 (the code violates the claim): the attribute-key check uses the
unanchored `re.match(r"^[a-z][a-z0-9-_]*", key)`, so the key `"a<b"` — which
does not fully match the spec's anchored pattern `^[a-z][a-z0-9-_]*$` — is
accepted, survives into the node's final Attribute Set, and `build`
succeeds. -/
theorem c5_attr_key_pattern_unanchored :
    build (.mk (.strv "div") [("a<b", AttrVal.str "v")] (.ok .nil)) =
      .ok (.mk "div" [("a<b", "v")] false [] .nil) ∧
    specMatchesAttrNameFull "a<b" = false ∧
    reMatchLowerAlphaStart "a<b" = true ∧
    dictGet (HNode.mk "div" [("a<b", "v")] false [] .nil).attributes "a<b" =
      some "v" := by decide

/-- C7 (the code violates the claim): a children entry that is neither a
mapping nor a string (here an `int`) is silently skipped by
`generate_children` — `build` succeeds and returns a tree omitting the
entry, instead of failing hard. -/
theorem c7_invalid_child_silently_skipped :
    build (.mk (.strv "div") []
        (.ok (.consText "a" (.consOther "int" .nil)))) =
      .ok (.mk "div" [] false [] (.consText "a" .nil)) ∧
    genChildren (.consOther "int" .nil) 1 = .ok .nil :=
  ⟨by decide, rfl⟩

/-- Counterexample to C8 as stated: with two node children carrying the same
`node_id`, `remove_child` removes them *both*; the claim says only the first
is removed and the later one is kept. -/
theorem c8_remove_child_counterexample :
    childrenRemoveChild
        [ChildEntry.nodeE ⟨"x"⟩, ChildEntry.textE "t", ChildEntry.nodeE ⟨"x"⟩]
        "x" = [ChildEntry.textE "t"] ∧
    ChildEntry.nodeE ⟨"x"⟩ ∉
      childrenRemoveChild
        [ChildEntry.nodeE ⟨"x"⟩, ChildEntry.textE "t", ChildEntry.nodeE ⟨"x"⟩]
        "x" := by decide

/-- C8 as amended: `remove_child(id)` removes *every* node child whose
`node_id` equals `id` (not merely the first); text children are always
kept, the relative order of the remaining entries is unchanged (the result
is a sublist), and the operation is a no-op — not an error — when no node
child matches. -/
theorem c8_remove_child_all_matches (children : List ChildEntry)
    (childNodeId : String) :
    List.Sublist (childrenRemoveChild children childNodeId) children ∧
    (∀ s : String, ChildEntry.textE s ∈ children →
      ChildEntry.textE s ∈ childrenRemoveChild children childNodeId) ∧
    (∀ n : NodeRef, ChildEntry.nodeE n ∈ childrenRemoveChild children childNodeId ↔
      ChildEntry.nodeE n ∈ children ∧ n.node_id ≠ childNodeId) ∧
    ((∀ n : NodeRef, ChildEntry.nodeE n ∈ children → n.node_id ≠ childNodeId) →
      childrenRemoveChild children childNodeId = children) := by
  refine ⟨List.filter_sublist children, ?_, ?_, ?_⟩
  · intro s hs
    exact List.mem_filter.mpr ⟨hs, rfl⟩
  · intro n
    unfold childrenRemoveChild
    rw [List.mem_filter]
    constructor
    · rintro ⟨hm, hp⟩
      refine ⟨hm, ?_⟩
      intro he
      simp only [he, strEq_self] at hp
      exact absurd hp (by decide)
    · rintro ⟨hm, hne⟩
      exact ⟨hm, by simp [strEq_false_of_ne hne]⟩
  · intro hall
    unfold childrenRemoveChild
    rw [List.filter_eq_self]
    intro a ha
    cases a with
    | nodeE n => simp [strEq_false_of_ne (hall n ha)]
    | textE s => rfl
    | otherE tn => rfl

/-- Witness for C8: removing an identifier that matches no node child
leaves the container unchanged. -/
theorem c8_remove_child_witness :
    childrenRemoveChild [ChildEntry.nodeE ⟨"a"⟩, ChildEntry.textE "t"] "b" =
      [ChildEntry.nodeE ⟨"a"⟩, ChildEntry.textE "t"] :=
  (c8_remove_child_all_matches [ChildEntry.nodeE ⟨"a"⟩, ChildEntry.textE "t"]
      "b").2.2.2
    (by
      intro n hn
      rcases List.mem_cons.mp hn with h | h
      · obtain rfl : n = ⟨"a"⟩ := by injection h
        decide
      · rcases List.mem_cons.mp h with h2 | h2
        · exact absurd h2 (by simp)
        · exact absurd h2 (by simp))

/-- C9: a node whose self-closing flag is set renders as the single
self-closing tag string — no separate closing tag — and its children, even
when non-empty, contribute nothing: replacing them by anything leaves the
rendering unchanged. -/
theorem c9_self_closing_render (n : HNode) (h : n.isSelfClosedTag = true) :
    to_html n = createSelfClosingTagString n.tagName
      (stylesToString n.inlineStyles ++ " " ++
        attributesToHtmlString n.attributes) ∧
    (∀ c : HChildren, to_html (n.withChildren c) = to_html n) := by
  cases n with
  | mk t a b s cs =>
    simp only [HNode.isSelfClosedTag] at h
    subst h
    constructor
    · simp only [to_html, HNode.tagName, HNode.inlineStyles, HNode.attributes,
        if_pos]
    · intro c
      simp only [HNode.withChildren, to_html, if_pos]

/-- Witness for C9: an `img` node carrying a child renders as the
self-closing tag alone. -/
theorem c9_self_closing_render_witness :
    to_html (HNode.mk "img" [("src", "test.jpg")] true []
        (.consText "ignored" .nil)) =
      createSelfClosingTagString "img"
        (stylesToString [] ++ " " ++
          attributesToHtmlString [("src", "test.jpg")]) :=
  (c9_self_closing_render
      (HNode.mk "img" [("src", "test.jpg")] true [] (.consText "ignored" .nil))
      rfl).1

/-- C10: `Children.add_children` extends the container with every supplied
element unconditionally — order preserved, no validation, never an error —
even for an element that is neither a node nor a string, while `add_child`
raises `TypeError` for exactly such an element; so the validated-children
invariant is breakable through this public entry point. -/
theorem c10_add_children_unchecked (children newChildren : List ChildEntry)
    (tn : String) :
    childrenAddChildren children newChildren = children ++ newChildren ∧
    ChildEntry.otherE tn ∈
      childrenAddChildren children [ChildEntry.otherE tn] ∧
    childrenAddChild children (ChildEntry.otherE tn) =
      .error ("Child must be Node or str, got " ++ tn) := by
  refine ⟨rfl, ?_, rfl⟩
  unfold childrenAddChildren
  exact List.mem_append.mpr (Or.inr (List.mem_singleton.mpr rfl))

/-- Counterexample to C1 as stated: an input nested beyond the ceiling whose
root `tag_name` is not a string fails with `TypeError` — not with the
recursion-depth `SecurityError` the claim promises for *every* too-deep
input. -/
theorem c1_depth_counterexample :
    MAX_RECURSION_DEPTH <
      dictDepth (.mk (.nonStr "int") []
        (.ok (.consDict (deepChain MAX_RECURSION_DEPTH) .nil))) ∧
    build (.mk (.nonStr "int") []
        (.ok (.consDict (deepChain MAX_RECURSION_DEPTH) .nil))) =
      .error (.tagNameNotString "int") ∧
    (BuildError.tagNameNotString "int").pythonException.1 = "TypeError" := by
  refine ⟨?_, ?_, rfl⟩
  · rw [dictDepth.eq_2, clDepth.eq_2, clDepth.eq_1, dictDepth_deepChain]
    omega
  · unfold build
    rw [fromDict.eq_1, if_neg (by decide)]

/-- C1 as amended: `build` succeeds only on inputs nested at most at the
ceiling (100); within the ceiling the recursion-depth error is never
raised; the recursion-depth failure is a `SecurityError` whose message
identifies "recursion depth"; and an otherwise-valid chain nested just past
the ceiling does fail with exactly that error, while too-deep inputs that
fail earlier fail with their earlier error rather than succeeding. -/
theorem c1_recursion_ceiling (d : IDict) :
    (∀ n : HNode, build d = .ok n → dictDepth d ≤ MAX_RECURSION_DEPTH) ∧
    (dictDepth d ≤ MAX_RECURSION_DEPTH → build d ≠ .error .recursionLimit) ∧
    (BuildError.recursionLimit.pythonException.1 = "SecurityError" ∧
      strContainsSub BuildError.recursionLimit.pythonException.2
        "recursion depth" = true) ∧
    (dictDepth (deepChain (MAX_RECURSION_DEPTH + 1)) =
        MAX_RECURSION_DEPTH + 1 ∧
      build (deepChain (MAX_RECURSION_DEPTH + 1)) =
        .error .recursionLimit ∧
      dictDepth (deepChain MAX_RECURSION_DEPTH) = MAX_RECURSION_DEPTH ∧
      build (deepChain MAX_RECURSION_DEPTH) ≠ .error .recursionLimit) := by
  refine ⟨?_, ?_, ⟨rfl, by decide⟩,
    dictDepth_deepChain _,
    deepChain_recursion_error _ 0 (by omega),
    dictDepth_deepChain _, ?_⟩
  · intro n h
    have := fromDict_ok_depth_le d 0 n h
    omega
  · intro hle
    exact fromDict_ne_recursion d 0 (by omega)
  · exact fromDict_ne_recursion (deepChain MAX_RECURSION_DEPTH) 0
      (by rw [dictDepth_deepChain]; omega)

/-- Witness for C1: a shallow input neither succeeds past the ceiling nor
raises the depth error. -/
theorem c1_recursion_ceiling_witness :
    dictDepth (IDict.mk (.strv "div") [] (.ok .nil)) ≤ MAX_RECURSION_DEPTH ∧
    build (.mk (.strv "div") [] (.ok .nil)) ≠ .error .recursionLimit :=
  ⟨(c1_recursion_ceiling (.mk (.strv "div") [] (.ok .nil))).1
      (.mk "div" [] false [] .nil) (by decide),
   (c1_recursion_ceiling (.mk (.strv "div") [] (.ok .nil))).2.1 (by decide)⟩

/-- Counterexample to C2 as stated: the tag name `"div<script>"` fails the
spec's anchored pattern, yet it passes the code's unanchored
`re.match(r"^[a-z][a-z0-9-]*", ...)` check and is rejected only by the
Catalog lookup — which raises `ValueError`, not the promised
`SecurityViolation`. -/
theorem c2_div_script_counterexample :
    build (.mk (.strv "div<script>") [] (.ok .nil)) =
      .error (.unsupportedTag "div<script>") ∧
    (BuildError.unsupportedTag "div<script>").pythonException =
      ("ValueError", "Invalid or unsupported tag name: 'div<script>'") ∧
    specMatchesTagNameFull "div<script>" = false ∧
    reMatchLowerAlphaStart "div<script>" = true := by decide

/-- C2 as amended: a supplied tag name whose normalized form fails the
pattern *at its start* (first character not a lowercase letter) raises
`SecurityError` naming the offending tag; one that passes the start check
but exceeds 50 characters raises `SecurityError`; and one that passes both
but is unknown to the Catalog — including `"div<script>"`, which the
unanchored check lets through — raises `ValueError` naming the offending
tag. -/
theorem c2_tag_name_validation (tagName : String)
    (attrs : List (String × AttrVal)) (childF : CField) :
    (reMatchLowerAlphaStart (pyLower (pyStrip tagName)) = false →
      build (.mk (.strv tagName) attrs childF) =
        .error (.invalidTagChars (pyLower (pyStrip tagName))) ∧
      (BuildError.invalidTagChars (pyLower (pyStrip tagName))).pythonException.1 =
        "SecurityError" ∧
      strContainsSub
        (BuildError.invalidTagChars (pyLower (pyStrip tagName))).pythonException.2
        (pyLower (pyStrip tagName)) = true) ∧
    (reMatchLowerAlphaStart (pyLower (pyStrip tagName)) = true →
      50 < pyLen (pyLower (pyStrip tagName)) →
      build (.mk (.strv tagName) attrs childF) =
        .error (.tagTooLong (pyLen (pyLower (pyStrip tagName)))) ∧
      (BuildError.tagTooLong
          (pyLen (pyLower (pyStrip tagName)))).pythonException.1 =
        "SecurityError") ∧
    (reMatchLowerAlphaStart (pyLower (pyStrip tagName)) = true →
      pyLen (pyLower (pyStrip tagName)) ≤ 50 →
      dictGet HTML_TAGS (pyLower (pyStrip tagName)) = none →
      build (.mk (.strv tagName) attrs childF) =
        .error (.unsupportedTag tagName) ∧
      (BuildError.unsupportedTag tagName).pythonException.1 = "ValueError" ∧
      strContainsSub (BuildError.unsupportedTag tagName).pythonException.2
        tagName = true) := by
  refine ⟨?_, ?_, ?_⟩
  · intro h
    refine ⟨?_, rfl, strContainsSub_of_parts _ _ _⟩
    have hvt : validateTagName tagName =
        .error (.invalidTagChars (pyLower (pyStrip tagName))) := by
      simp only [validateTagName]
      rw [if_pos (by simp [h])]
    unfold build
    rw [fromDict.eq_2, if_neg (by decide)]
    simp only [hvt]
  · intro h hlen
    refine ⟨?_, rfl⟩
    have hvt : validateTagName tagName =
        .error (.tagTooLong (pyLen (pyLower (pyStrip tagName)))) := by
      simp only [validateTagName]
      rw [if_neg (by simp [h]), if_pos hlen]
    unfold build
    rw [fromDict.eq_2, if_neg (by decide)]
    simp only [hvt]
  · intro h hlen hcat
    refine ⟨?_, rfl, strContainsSub_of_parts _ _ _⟩
    have hvt : validateTagName tagName = .ok (pyLower (pyStrip tagName)) := by
      simp only [validateTagName]
      rw [if_neg (by simp [h]), if_neg (by omega)]
    unfold build
    rw [fromDict.eq_2, if_neg (by decide)]
    simp only [hvt, hcat]

/-- Witness for C2: an unknown tag (`"customtag"`) yields the unsupported-tag
`ValueError`, and a tag starting with `<` yields the invalid-characters
`SecurityError`. -/
theorem c2_tag_name_validation_witness :
    build (.mk (.strv "customtag") [] (.ok .nil)) =
      .error (.unsupportedTag "customtag") ∧
    build (.mk (.strv "<script>") [] (.ok .nil)) =
      .error (.invalidTagChars (pyLower (pyStrip "<script>"))) :=
  ⟨((c2_tag_name_validation "customtag" [] (.ok .nil)).2.2 (by decide)
      (by decide) rfl).1,
   ((c2_tag_name_validation "<script>" [] (.ok .nil)).1 (by decide)).1⟩

/-- C6: a `style` value surviving attribute validation that is a string or
any other non-mapping raises `ValueError("Style attribute must be a
dictionary")`, aborting construction; a mapping-valued or absent `style`
passes the stage without that error; in particular
`attributes = {style: "color:red"}` makes `build` fail with exactly that
error, while a mapping-valued `style` builds successfully. -/
theorem c6_style_value_policy (rawAttrs : List (String × AttrVal)) :
    (∀ s, dictGet rawAttrs "style" = some (AttrVal.str s) →
      createInlineStyleAttributes rawAttrs = .error .styleNotDict) ∧
    (∀ tn, dictGet rawAttrs "style" = some (AttrVal.other tn) →
      createInlineStyleAttributes rawAttrs = .error .styleNotDict) ∧
    (∀ d, dictGet rawAttrs "style" = some (AttrVal.dict d) →
      createInlineStyleAttributes rawAttrs = .ok (validateStyles d)) ∧
    (dictGet rawAttrs "style" = none →
      createInlineStyleAttributes rawAttrs = .ok (validateStyles [])) ∧
    BuildError.styleNotDict.pythonException =
      ("ValueError", "Style attribute must be a dictionary") ∧
    build (.mk (.strv "div") [("style", AttrVal.str "color:red")] (.ok .nil)) =
      .error .styleNotDict ∧
    build (.mk (.strv "div") [("style", AttrVal.dict [("color", "red")])]
        (.ok .nil)) =
      .ok (.mk "div" [] false [("color", "red")] .nil) := by
  refine ⟨fun s hx => ?_, fun tn hx => ?_, fun d hx => ?_, fun hx => ?_,
    rfl, by decide, by decide⟩
  all_goals
    unfold createInlineStyleAttributes
    rw [hx]

/-- Witness for C6: a string-valued `style` is rejected at the
inline-style stage; an attribute dict without `style` passes it. -/
theorem c6_style_value_policy_witness :
    createInlineStyleAttributes [("style", AttrVal.str "color:red")] =
      .error .styleNotDict ∧
    createInlineStyleAttributes [("class", AttrVal.str "c")] =
      .ok (validateStyles []) :=
  ⟨(c6_style_value_policy [("style", AttrVal.str "color:red")]).1 "color:red"
      rfl,
   (c6_style_value_policy [("class", AttrVal.str "c")]).2.2.2.1 rfl⟩

end HtmlConv
